import Mathlib

/-!
Shallow embedding of `src/hotel_booking.py` (class `HotelBookingSystem`).

Python strings are modelled as `List Char`; `datetime.date` values are
modelled by their year/month/day fields together with `Date.ord`, the
proleptic-Gregorian day ordinal (the value of Python's `date.toordinal()`),
so that date comparison and subtraction are ordinal comparison and
subtraction.  Python code that can raise an uncaught exception is modelled
with `PyResult`; the in-memory ledger `self.bookings` is passed explicitly,
and a call to `save_bookings` is recorded as a `saved` flag.
-/

namespace HotelBooking

abbrev Str := List Char

/-- Result of running a piece of Python code: either a normal value or an
uncaught exception (`crash`). -/
inductive PyResult (α : Type) : Type where
  | crash : PyResult α
  | ok : α → PyResult α
  deriving DecidableEq

/-! ## Dates (model of `datetime.date`) -/

def isLeapYear (y : Nat) : Bool :=
  y % 4 == 0 && (y % 100 != 0 || y % 400 == 0)

def daysInMonth (y m : Nat) : Nat :=
  if m = 2 then (if isLeapYear y then 29 else 28)
  else if m = 4 ∨ m = 6 ∨ m = 9 ∨ m = 11 then 30
  else 31

def daysBeforeMonth (y m : Nat) : Nat :=
  (List.range (m - 1)).foldl (fun a i => a + daysInMonth y (i + 1)) 0

structure Date where
  year : Nat
  month : Nat
  day : Nat
  deriving DecidableEq

/-- Model of `date.toordinal()`: day number in the proleptic Gregorian calendar,
with day 1 = January 1 of year 1. -/
def Date.ord (d : Date) : Nat :=
  365 * (d.year - 1) + (d.year - 1) / 4 - (d.year - 1) / 100 + (d.year - 1) / 400
    + daysBeforeMonth d.year d.month + d.day

/-! ## `parse_date` -/

def digitsToNat (s : Str) : Nat :=
  s.foldl (fun a c => 10 * a + (c.toNat - 48)) 0

/-- Field validation performed by `datetime.strptime(..., "%Y-%m-%d")` and the
`datetime` constructor: every slot is a digit, the year is at least 1
(MINYEAR), the month is 1..12 and the day fits the month. -/
def mkDate? (ys ms ds : Str) : Option Date :=
  if (ys ++ ms ++ ds).all Char.isDigit then
    let y := digitsToNat ys
    let m := digitsToNat ms
    let d := digitsToNat ds
    if 1 ≤ y ∧ 1 ≤ m ∧ m ≤ 12 ∧ 1 ≤ d ∧ d ≤ daysInMonth y m then
      some ⟨y, m, d⟩
    else none
  else none

/-- Embedding of `parse_date`: `datetime.strptime(date_str, "%Y-%m-%d")` wrapped in
`try/except`.  CPython's `%Y` matches exactly four digits while `%m` and `%d`
match one or two digits, and no input may remain after the day; any failure
(including out-of-range month/day) returns `None`. -/
def parse_date (s : Str) : Option Date :=
  match s with
  | [y1, y2, y3, y4, '-', m1, '-', d1] => mkDate? [y1, y2, y3, y4] [m1] [d1]
  | [y1, y2, y3, y4, '-', m1, '-', d1, d2] => mkDate? [y1, y2, y3, y4] [m1] [d1, d2]
  | [y1, y2, y3, y4, '-', m1, m2, '-', d1] => mkDate? [y1, y2, y3, y4] [m1, m2] [d1]
  | [y1, y2, y3, y4, '-', m1, m2, '-', d1, d2] => mkDate? [y1, y2, y3, y4] [m1, m2] [d1, d2]
  | _ => none

/-- Embedding of `calculate_nights`: `(date_out - date_in).days`, i.e. the ordinal
difference, with `None` when either date fails to parse. -/
def calculate_nights (check_in check_out : Str) : Option Int :=
  match parse_date check_in, parse_date check_out with
  | some date_in, some date_out => some ((date_out.ord : Int) - (date_in.ord : Int))
  | _, _ => none

/-- Embedding of `dates_overlap`: `(start1 < end2) and (start2 < end1)`, the half-open
interval overlap test. -/
def dates_overlap (start1 end1 start2 end2 : Date) : Bool :=
  decide (start1.ord < end2.ord) && decide (start2.ord < end1.ord)

/-! ## Data model -/

structure Booking where
  booking_id : Str
  guest_name : Str
  email : Str
  phone : Str
  room_type : Str
  check_in : Str
  check_out : Str
  guests : Int
  nights : Int
  total_price : Int
  status : Str
  created_at : Str
  cancelled_at : Option Str
  deriving DecidableEq

def confirmedStr : Str := "confirmed".data

def cancelledStr : Str := "cancelled".data

structure RoomInfo where
  price : Int
  total : Int
  deriving DecidableEq

/-- The fixed `self.rooms` table. -/
def rooms (room_type : Str) : Option RoomInfo :=
  if room_type = "single".data then some ⟨2000, 10⟩
  else if room_type = "double".data then some ⟨2500, 8⟩
  else if room_type = "suite".data then some ⟨3000, 5⟩
  else none

/-! ## `generate_booking_id` -/

def digitChar (n : Nat) : Char :=
  if n = 0 then '0' else if n = 1 then '1' else if n = 2 then '2'
  else if n = 3 then '3' else if n = 4 then '4' else if n = 5 then '5'
  else if n = 6 then '6' else if n = 7 then '7' else if n = 8 then '8' else '9'

/-- Decimal digits, fuel-based so that the kernel can evaluate it; the fuel
`n + 1` always suffices. -/
def natReprAux : Nat → Nat → List Char
  | 0, _ => []
  | fuel + 1, n =>
    if n < 10 then [digitChar n]
    else natReprAux fuel (n / 10) ++ [digitChar (n % 10)]

/-- Decimal digits of a natural number, most significant first. -/
def natRepr (n : Nat) : List Char :=
  natReprAux (n + 1) n

/-- Nonempty all-digit strings parsed by `int()`. -/
def digitsToNat? (s : Str) : Option Nat :=
  if s ≠ [] ∧ s.all Char.isDigit then some (digitsToNat s) else none

/-- Model of Python `int()` on a string: an optional sign followed by decimal
digits, `ValueError` (here `none`) otherwise. -/
def pyInt? (s : Str) : Option Int :=
  if s.head? = some '-' then (digitsToNat? (s.drop 1)).map (fun n => -(n : Int))
  else if s.head? = some '+' then (digitsToNat? (s.drop 1)).map (fun n => (n : Int))
  else (digitsToNat? s).map (fun n => (n : Int))

def startsWithBK (s : Str) : Bool := s.take 2 = ['B', 'K']

/-- One step of the `max_n` scan in `generate_booking_id`: keep `m` unless the
ID has the `BK` prefix, its suffix parses, and the value is larger. -/
def maxStep (m : Nat) (b : Booking) : Nat :=
  if startsWithBK b.booking_id then
    match pyInt? (b.booking_id.drop 2) with
    | some n => if (m : Int) < n then n.toNat else m
    | none => m
  else m

def maxSuffix (bookings : List Booking) : Nat :=
  bookings.foldl maxStep 0

/-- Model of the format `f"{n:04d}"` for `n ≥ 0`: zero-pad the decimal digits to width 4. -/
def pad4 (n : Nat) : Str :=
  List.replicate (4 - (natRepr n).length) '0' ++ natRepr n

def generate_booking_id (bookings : List Booking) : Str :=
  'B' :: 'K' :: pad4 (maxSuffix bookings + 1)

/-! ## Availability -/

/-- The call `dates_overlap(date_in, date_out, b_in, b_out)` where `b_in` and
`b_out` may be `None`: comparing a `date` with `None` raises `TypeError`, and
Python's `and` short-circuits, so `b_out = None` always crashes while
`b_in = None` crashes only when `date_in < b_out` holds. -/
def dates_overlap_opt (date_in date_out : Date) (b_in b_out : Option Date) :
    PyResult Bool :=
  match b_out with
  | none => .crash
  | some bo =>
    if date_in.ord < bo.ord then
      match b_in with
      | none => .crash
      | some bi => .ok (decide (bi.ord < date_out.ord))
    else .ok false

/-- The loop of `booked_count_for_range` over the ledger. -/
def countLoop (room_type : Str) (date_in date_out : Date) :
    List Booking → Nat → PyResult Nat
  | [], c => .ok c
  | b :: bs, c =>
    if b.room_type ≠ room_type then countLoop room_type date_in date_out bs c
    else if b.status ≠ confirmedStr then countLoop room_type date_in date_out bs c
    else
      match dates_overlap_opt date_in date_out (parse_date b.check_in) (parse_date b.check_out) with
      | .crash => .crash
      | .ok true => countLoop room_type date_in date_out bs (c + 1)
      | .ok false => countLoop room_type date_in date_out bs c

/-- Embedding of `booked_count_for_range`: `None` when a query date fails to parse,
otherwise the count of confirmed overlapping bookings of the type (crashing
when a scanned booking stores an unparseable date that gets compared). -/
def booked_count_for_range (bookings : List Booking) (room_type check_in check_out : Str) :
    PyResult (Option Nat) :=
  match parse_date check_in, parse_date check_out with
  | some date_in, some date_out =>
    match countLoop room_type date_in date_out bookings 0 with
    | .crash => .crash
    | .ok c => .ok (some c)
  | _, _ => .ok none

/-- Embedding of `available_rooms_for_range`: `None` for an unknown room type or when
`booked_count_for_range` returns `None`, else `max(0, total - booked)`. -/
def available_rooms_for_range (bookings : List Booking) (room_type check_in check_out : Str) :
    PyResult (Option Int) :=
  match rooms room_type with
  | none => .ok none
  | some info =>
    match booked_count_for_range bookings room_type check_in check_out with
    | .crash => .crash
    | .ok none => .ok none
    | .ok (some booked) => .ok (some (max 0 (info.total - (booked : Int))))

/-! ## CRUD -/

def invalidRoomTypeMsg : Str := "Invalid room type".data

def invalidDateMsg : Str := "Invalid date format. Use YYYY-MM-DD".data

def checkoutMsg : Str := "Check-out must be after check-in".data

def availabilityErrorMsg : Str := "Error calculating availability".data

def noRoomsMsg (room_type : Str) : Str :=
  "No ".data ++ room_type ++ " rooms available for those dates".data

def successMsg : Str := "Booking created successfully".data

/-- Result of `create_booking`: final ledger, returned booking (or `None`),
returned message, and whether `save_bookings` was called. -/
structure CreateResult where
  bookings : List Booking
  booking : Option Booking
  message : Str
  saved : Bool
  deriving DecidableEq

/-- Embedding of `create_booking`; `now` stands for `datetime.now().isoformat()`. -/
def create_booking (bookings : List Booking) (now : Str)
    (guest_name email phone room_type check_in check_out : Str) (guests : Int) :
    PyResult CreateResult :=
  match rooms room_type with
  | none => .ok ⟨bookings, none, invalidRoomTypeMsg, false⟩
  | some info =>
    match calculate_nights check_in check_out with
    | none => .ok ⟨bookings, none, invalidDateMsg, false⟩
    | some nights =>
      if nights ≤ 0 then .ok ⟨bookings, none, checkoutMsg, false⟩
      else
        match available_rooms_for_range bookings room_type check_in check_out with
        | .crash => .crash
        | .ok none => .ok ⟨bookings, none, availabilityErrorMsg, false⟩
        | .ok (some available) =>
          if available ≤ 0 then .ok ⟨bookings, none, noRoomsMsg room_type, false⟩
          else
            let b : Booking :=
              { booking_id := generate_booking_id bookings
                guest_name := guest_name
                email := email
                phone := phone
                room_type := room_type
                check_in := check_in
                check_out := check_out
                guests := guests
                nights := nights
                total_price := info.price * nights
                status := confirmedStr
                created_at := now
                cancelled_at := none }
            .ok ⟨bookings ++ [b], some b, successMsg, true⟩

def get_booking : List Booking → Str → Option Booking
  | [], _ => none
  | b :: bs, booking_id =>
    if b.booking_id = booking_id then some b else get_booking bs booking_id

/-- Result of `cancel_booking`: final ledger, returned booking (or `None` for
not found), and whether `save_bookings` was called. -/
structure CancelResult where
  bookings : List Booking
  booking : Option Booking
  saved : Bool
  deriving DecidableEq

/-- Embedding of `cancel_booking`; `now` stands for `datetime.now().isoformat()`. -/
def cancel_booking : List Booking → Str → Str → CancelResult
  | [], _, _ => ⟨[], none, false⟩
  | b :: bs, now, booking_id =>
    if b.booking_id = booking_id then
      if b.status = cancelledStr then ⟨b :: bs, some b, false⟩
      else
        let b' := { b with status := cancelledStr, cancelled_at := some now }
        ⟨b' :: bs, some b', true⟩
    else
      let r := cancel_booking bs now booking_id
      ⟨b :: r.bookings, r.booking, r.saved⟩

def toLowerStr (s : Str) : Str := s.map Char.toLower

/-- Python's `needle in hay` on strings: substring containment. -/
def pySubstr (needle hay : Str) : Bool := decide (needle <:+: hay)

def search_bookings (bookings : List Booking) (query : Str) : List Booking :=
  let query_lower := toLowerStr query
  bookings.filter fun b =>
    pySubstr query_lower (toLowerStr b.guest_name)
      || pySubstr query_lower (toLowerStr b.email)
      || pySubstr query_lower (toLowerStr b.booking_id)

/-! ## Specification-side definitions -/

/-- The predicate of 4.2: a booking of the queried type, confirmed, whose
stored `[check_in, check_out)` interval parses and overlaps the query. -/
def matchesQuery (room_type : Str) (date_in date_out : Date) (b : Booking) : Bool :=
  decide (b.room_type = room_type) && decide (b.status = confirmedStr) &&
    (match parse_date b.check_in, parse_date b.check_out with
     | some bi, some bo => dates_overlap date_in date_out bi bo
     | _, _ => false)

/-- A well-formed prefixed ID's numeric suffix, as the spec describes it. -/
def bkSuffix? (s : Str) : Option Int :=
  if startsWithBK s then pyInt? (s.drop 2) else none

/-- Maximum numeric suffix among well-formed `BK`-prefixed IDs, ignoring
malformed suffixes (and bounded below by 0, the initial `max_n`). -/
def specMaxSuffix (bookings : List Booking) : Int :=
  (bookings.filterMap (fun b => bkSuffix? b.booking_id)).foldr max 0

/-! ## Example ledgers used in concrete scenarios -/

def sampleNow : Str := "2024-01-15T09:00:00".data

/-- A confirmed single-room booking covering 2024-02-01 to 2024-02-05. -/
def febBooking (id : Str) : Booking :=
  { booking_id := id, guest_name := "Guest".data, email := "g@x.com".data,
    phone := "9".data, room_type := "single".data,
    check_in := "2024-02-01".data, check_out := "2024-02-05".data,
    guests := 1, nights := 4, total_price := 8000,
    status := confirmedStr, created_at := sampleNow, cancelled_at := none }

/-- Ten confirmed single bookings all covering 2024-02-01 to 2024-02-05,
exhausting the 10 single rooms. -/
def ledger10 : List Booking :=
  [febBooking "BK0001".data, febBooking "BK0002".data, febBooking "BK0003".data,
   febBooking "BK0004".data, febBooking "BK0005".data, febBooking "BK0006".data,
   febBooking "BK0007".data, febBooking "BK0008".data, febBooking "BK0009".data,
   febBooking "BK0010".data]

/-- The booking the accepted 12th request of Scenario 2 produces. -/
def backToBackBooking : Booking :=
  { booking_id := "BK0011".data, guest_name := "X".data, email := "x@y.z".data,
    phone := "7".data, room_type := "single".data,
    check_in := "2024-02-05".data, check_out := "2024-02-06".data,
    guests := 1, nights := 1, total_price := 2000,
    status := confirmedStr, created_at := sampleNow, cancelled_at := none }

/-- A ledger entry whose stored check-in date does not parse. -/
def malformedDateBooking : Booking :=
  { booking_id := "BK0001".data, guest_name := "Guest".data, email := "g@x.com".data,
    phone := "9".data, room_type := "single".data,
    check_in := "garbage".data, check_out := "2024-01-05".data,
    guests := 1, nights := 4, total_price := 8000,
    status := confirmedStr, created_at := sampleNow, cancelled_at := none }

/-! ## Helper lemmas -/

lemma rooms_total_nonneg {rt : Str} {info : RoomInfo} (h : rooms rt = some info) :
    0 ≤ info.total := by
  unfold rooms at h
  split_ifs at h <;> cases h <;> decide

/-! ## C3: half-open interval overlap -/

/-- C3: `dates_overlap` returns true iff `startA < endB` and `startB < endA`
(dates compared by their day ordinal), and in particular an interval ending on
day `d` never overlaps an interval starting on day `d`. -/
theorem claim3_overlap_iff :
    (∀ s1 e1 s2 e2 : Date,
        dates_overlap s1 e1 s2 e2 = true ↔ s1.ord < e2.ord ∧ s2.ord < e1.ord) ∧
    (∀ s1 d e2 : Date, dates_overlap s1 d d e2 = false) := by
  constructor
  · intro s1 e1 s2 e2
    simp [dates_overlap]
  · intro s1 d e2
    simp [dates_overlap]

/-- Witness: checking out on 2024-01-05 does not conflict with checking in on
2024-01-05. -/
theorem claim3_overlap_iff_witness :
    dates_overlap ⟨2024, 1, 1⟩ ⟨2024, 1, 5⟩ ⟨2024, 1, 5⟩ ⟨2024, 1, 9⟩ = false :=
  claim3_overlap_iff.2 ⟨2024, 1, 1⟩ ⟨2024, 1, 5⟩ ⟨2024, 1, 9⟩

/-! ## C10: create_booking is atomic on failure -/

/-- C10: whenever `create_booking` returns without a booking the ledger is
unchanged and `save_bookings` was not called; a booking is returned exactly on
the accepted path, which appends it and saves. -/
theorem claim10_create_atomic :
    ∀ (bs : List Booking) (now gn em ph rt ci co : Str) (g : Int) (r : CreateResult),
      create_booking bs now gn em ph rt ci co g = .ok r →
      (r.booking = none → r.bookings = bs ∧ r.saved = false) ∧
      (∀ b, r.booking = some b → r.bookings = bs ++ [b] ∧ r.saved = true) := by
  intro bs now gn em ph rt ci co g r hr
  unfold create_booking at hr
  repeat' split at hr
  all_goals
    first
      | exact (PyResult.noConfusion hr)
      | (injection hr with h; subst h;
         exact ⟨fun _ => ⟨rfl, rfl⟩, fun b hb => by simp at hb⟩)
      | (injection hr with h; subst h;
         exact ⟨fun hb => by simp at hb,
                fun b hb => by injection hb with h2; subst h2; exact ⟨rfl, rfl⟩⟩)

/-- Witness: a rejected create (bad date) leaves the empty ledger empty and
does not save. -/
theorem claim10_create_atomic_witness :
    ([] : List Booking) = [] ∧ false = false := by
  have h := claim10_create_atomic [] sampleNow "A".data "a@b.c".data "1".data
    "single".data "nope".data "2024-01-02".data 1
    ⟨[], none, invalidDateMsg, false⟩ (by decide)
  exact h.1 rfl

/-! ## C2: available units -/

/-- C2: for a known room type, `available_rooms_for_range` is
`max(0, total - booked)`, which lies in `[0, total]`; it is `None` for an
unknown room type or when the booked count is `None`. -/
theorem claim2_available_units :
    ∀ (bs : List Booking) (rt ci co : Str),
      (rooms rt = none → available_rooms_for_range bs rt ci co = .ok none) ∧
      (∀ info, rooms rt = some info →
        booked_count_for_range bs rt ci co = .ok none →
        available_rooms_for_range bs rt ci co = .ok none) ∧
      (∀ info c, rooms rt = some info →
        booked_count_for_range bs rt ci co = .ok (some c) →
        available_rooms_for_range bs rt ci co
            = .ok (some (max 0 (info.total - (c : Int)))) ∧
          0 ≤ max 0 (info.total - (c : Int)) ∧
          max 0 (info.total - (c : Int)) ≤ info.total) := by
  intro bs rt ci co
  refine ⟨fun h => ?_, fun info hinfo hb => ?_, fun info c hinfo hb => ?_⟩
  · simp [available_rooms_for_range, h]
  · simp [available_rooms_for_range, hinfo, hb]
  · refine ⟨by simp [available_rooms_for_range, hinfo, hb], le_max_left _ _, ?_⟩
    have h0 := rooms_total_nonneg hinfo
    have hc : (0 : Int) ≤ (c : Int) := Int.natCast_nonneg c
    exact max_le h0 (by omega)

/-- Witness: an empty ledger gives 10 available single rooms, which is
`max 0 (10 - 0)` and lies in `[0, 10]`. -/
theorem claim2_available_units_witness :
    available_rooms_for_range [] "single".data "2024-01-01".data "2024-01-03".data
      = .ok (some 10) := by
  have h := (claim2_available_units [] "single".data "2024-01-01".data
    "2024-01-03".data).2.2 ⟨2000, 10⟩ 0 (by decide) (by decide)
  simpa using h.1

/-! ## C5: Scenario 2 -/

/-- C5: with the 10 single rooms exhausted over 2024-02-01..05, an 11th create
for the overlapping sub-range 2024-02-02..03 is rejected with the
no-rooms-available reason and changes nothing, while a 12th create for the
back-to-back range 2024-02-05..06 is accepted. -/
theorem claim5_scenario2 :
    create_booking ledger10 sampleNow "X".data "x@y.z".data "7".data
        "single".data "2024-02-02".data "2024-02-03".data 1
      = .ok ⟨ledger10, none, noRoomsMsg "single".data, false⟩ ∧
    create_booking ledger10 sampleNow "X".data "x@y.z".data "7".data
        "single".data "2024-02-05".data "2024-02-06".data 1
      = .ok ⟨ledger10 ++ [backToBackBooking], some backToBackBooking,
             successMsg, true⟩ := by
  constructor <;> decide

/-! ## C1: validation order of create_booking -/

/-- C1 (amended): `create_booking` validates in short-circuit order — unknown
room type (regardless of the dates), then unparseable date, then non-positive
nights, then availability `None` / non-positive availability — and every
rejection returns no record with the corresponding reason; the date-format
and no-rooms reasons are the full texts "Invalid date format. Use YYYY-MM-DD"
and "No {room_type} rooms available for those dates". -/
theorem claim1_validation_order :
    ∀ (bs : List Booking) (now gn em ph rt ci co : Str) (g : Int),
      (rooms rt = none →
        create_booking bs now gn em ph rt ci co g
          = .ok ⟨bs, none, invalidRoomTypeMsg, false⟩) ∧
      (rooms rt ≠ none → calculate_nights ci co = none →
        create_booking bs now gn em ph rt ci co g
          = .ok ⟨bs, none, invalidDateMsg, false⟩) ∧
      (∀ n, rooms rt ≠ none → calculate_nights ci co = some n → n ≤ 0 →
        create_booking bs now gn em ph rt ci co g
          = .ok ⟨bs, none, checkoutMsg, false⟩) ∧
      (∀ n, rooms rt ≠ none → calculate_nights ci co = some n → 0 < n →
        available_rooms_for_range bs rt ci co = .ok none →
        create_booking bs now gn em ph rt ci co g
          = .ok ⟨bs, none, availabilityErrorMsg, false⟩) ∧
      (∀ n a, rooms rt ≠ none → calculate_nights ci co = some n → 0 < n →
        available_rooms_for_range bs rt ci co = .ok (some a) → a ≤ 0 →
        create_booking bs now gn em ph rt ci co g
          = .ok ⟨bs, none, noRoomsMsg rt, false⟩) := by
  intro bs now gn em ph rt ci co g
  refine ⟨fun h => ?_, fun hr hn => ?_, fun n hr hn hn0 => ?_,
    fun n hr hn hn0 hav => ?_, fun n a hr hn hn0 hav ha => ?_⟩
  · simp [create_booking, h]
  · obtain ⟨info, hinfo⟩ := Option.ne_none_iff_exists'.mp hr
    simp [create_booking, hinfo, hn]
  · obtain ⟨info, hinfo⟩ := Option.ne_none_iff_exists'.mp hr
    simp [create_booking, hinfo, hn, hn0]
  · obtain ⟨info, hinfo⟩ := Option.ne_none_iff_exists'.mp hr
    have h1 : ¬ (n ≤ 0) := by omega
    simp [create_booking, hinfo, hn, h1, hav]
  · obtain ⟨info, hinfo⟩ := Option.ne_none_iff_exists'.mp hr
    have h1 : ¬ (n ≤ 0) := by omega
    simp [create_booking, hinfo, hn, h1, hav, ha]

/-- Counterexample to C1 as stated: the rejection reasons for a bad date and
for no availability are not the strings "Invalid date format" and
"No rooms available" but longer texts. -/
theorem claim1_validation_order_counterexample :
    create_booking [] sampleNow "A".data "a@b.c".data "1".data "single".data
        "nope".data "2024-01-02".data 1
      = .ok ⟨[], none, "Invalid date format. Use YYYY-MM-DD".data, false⟩ ∧
    "Invalid date format. Use YYYY-MM-DD".data ≠ "Invalid date format".data ∧
    create_booking ledger10 sampleNow "A".data "a@b.c".data "1".data "single".data
        "2024-02-02".data "2024-02-03".data 1
      = .ok ⟨ledger10, none, "No single rooms available for those dates".data, false⟩ ∧
    "No single rooms available for those dates".data ≠ "No rooms available".data := by
  refine ⟨by decide, by decide, by decide, by decide⟩

/-- Witness: an unknown room type is rejected before the (bad) dates are even
looked at. -/
theorem claim1_validation_order_witness :
    create_booking [] sampleNow "A".data "a@b.c".data "1".data "penthouse".data
        "nope".data "also-nope".data 1
      = .ok ⟨[], none, invalidRoomTypeMsg, false⟩ :=
  (claim1_validation_order [] sampleNow "A".data "a@b.c".data "1".data
    "penthouse".data "nope".data "also-nope".data 1).1 (by decide)

/-! ## C9: date parsing -/

/-- C9 (amended): `parse_date` is total, rejecting out-of-range and malformed
strings such as "2024-13-40", "not-a-date" and "2024-02-30" but accepting
4-digit-year dates with 1- or 2-digit month and day (zero padding is
optional); `calculate_nights` is `None` as soon as either date fails to parse
and otherwise the raw ordinal difference with no positivity check; and
`create_booking` with a known room type and an unparseable date rejects with
the date-format message. -/
theorem claim9_parse_date :
    parse_date "2024-13-40".data = none ∧
    parse_date "not-a-date".data = none ∧
    parse_date "2024-02-30".data = none ∧
    parse_date "2024-1-1".data = some ⟨2024, 1, 1⟩ ∧
    (∀ ci co : Str, parse_date ci = none → calculate_nights ci co = none) ∧
    (∀ ci co : Str, parse_date co = none → calculate_nights ci co = none) ∧
    (∀ (ci co : Str) (di dOut : Date), parse_date ci = some di →
      parse_date co = some dOut →
      calculate_nights ci co = some ((dOut.ord : Int) - (di.ord : Int))) ∧
    (∀ (bs : List Booking) (now gn em ph rt ci co : Str) (g : Int),
      rooms rt ≠ none → calculate_nights ci co = none →
      create_booking bs now gn em ph rt ci co g
        = .ok ⟨bs, none, invalidDateMsg, false⟩) := by
  refine ⟨by decide, by decide, by decide, by decide, ?_, ?_, ?_, ?_⟩
  · intro ci co h
    simp [calculate_nights, h]
  · intro ci co h
    rcases hci : parse_date ci with _ | di <;> simp [calculate_nights, hci, h]
  · intro ci co di dOut h1 h2
    simp [calculate_nights, h1, h2]
  · intro bs now gn em ph rt ci co g hr hn
    obtain ⟨info, hinfo⟩ := Option.ne_none_iff_exists'.mp hr
    simp [create_booking, hinfo, hn]

/-- Counterexample to C9 as stated: "2024-1-1" is not a strict zero-padded
YYYY-MM-DD literal, yet `parse_date` accepts it rather than returning
Invalid. -/
theorem claim9_parse_date_counterexample :
    parse_date "2024-1-1".data = some ⟨2024, 1, 1⟩ ∧
    parse_date "2024-1-1".data ≠ none := by
  exact ⟨by decide, by decide⟩

/-- Witness: `calculate_nights` propagates an unparseable check-in. -/
theorem claim9_parse_date_witness :
    calculate_nights "not-a-date".data "2024-01-02".data = none :=
  claim9_parse_date.2.2.2.2.1 "not-a-date".data "2024-01-02".data (by decide)

/-! ## C4: booked count -/

lemma dates_overlap_opt_some (di dOut bi bo : Date) :
    dates_overlap_opt di dOut (some bi) (some bo)
      = .ok (dates_overlap di dOut bi bo) := by
  simp only [dates_overlap_opt, dates_overlap]
  split_ifs with h <;> simp [h]

lemma countLoop_spec (rt : Str) (di dOut : Date) :
    ∀ (l : List Booking) (c : Nat),
      (∀ b ∈ l, b.room_type = rt → b.status = confirmedStr →
        (parse_date b.check_in).isSome ∧ (parse_date b.check_out).isSome) →
      countLoop rt di dOut l c
        = .ok (c + (l.filter (matchesQuery rt di dOut)).length) := by
  intro l
  induction l with
  | nil => intro c _; simp [countLoop]
  | cons b t ih =>
    intro c H
    have Ht := fun x hx => H x (List.mem_cons_of_mem _ hx)
    by_cases h1 : b.room_type = rt
    · by_cases h2 : b.status = confirmedStr
      · obtain ⟨hin, hout⟩ := H b (List.mem_cons_self _ _) h1 h2
        obtain ⟨bi, hbi⟩ := Option.isSome_iff_exists.mp hin
        obtain ⟨bo, hbo⟩ := Option.isSome_iff_exists.mp hout
        have hov := dates_overlap_opt_some di dOut bi bo
        rcases hb : dates_overlap di dOut bi bo with _ | _
        · simp only [countLoop, h1, h2, not_true_eq_false, if_neg, hbi, hbo,
            hov, hb, if_false]
          rw [ih c Ht]
          simp [List.filter_cons, matchesQuery, h1, h2, hbi, hbo, hb]
        · simp only [countLoop, h1, h2, not_true_eq_false, if_neg, hbi, hbo,
            hov, hb, if_false]
          rw [ih (c + 1) Ht]
          have hm : matchesQuery rt di dOut b = true := by
            simp [matchesQuery, h1, h2, hbi, hbo, hb]
          simp only [List.filter_cons, hm, if_pos, List.length_cons]
          have harith : c + 1 + (t.filter (matchesQuery rt di dOut)).length
              = c + ((t.filter (matchesQuery rt di dOut)).length + 1) := by
            omega
          rw [harith]
          simp
      · simp only [countLoop, h1, h2]
        rw [if_neg (by simp [h1]), if_pos (by simp [h2])]
        rw [ih c Ht]
        have hm : matchesQuery rt di dOut b = false := by
          simp [matchesQuery, h2]
        simp [List.filter_cons, hm]
    · simp only [countLoop]
      rw [if_pos (by simp [h1])]
      rw [ih c Ht]
      have hm : matchesQuery rt di dOut b = false := by
        simp [matchesQuery, h1]
      simp [List.filter_cons, hm]

/-- C4 (amended): `booked_count_for_range` is `None` exactly when a query date
fails to parse; and on any ledger whose confirmed bookings of the queried type
store parseable dates it returns the number of bookings of that type that are
confirmed and whose stored half-open interval overlaps the query interval —
cancelled bookings are never counted. -/
theorem claim4_booked_count :
    ∀ (bs : List Booking) (rt ci co : Str),
      ((parse_date ci = none ∨ parse_date co = none) →
        booked_count_for_range bs rt ci co = .ok none) ∧
      (∀ di dOut, parse_date ci = some di → parse_date co = some dOut →
        (∀ b ∈ bs, b.room_type = rt → b.status = confirmedStr →
          (parse_date b.check_in).isSome ∧ (parse_date b.check_out).isSome) →
        booked_count_for_range bs rt ci co
          = .ok (some ((bs.filter (matchesQuery rt di dOut)).length))) ∧
      (∀ di dOut b, b.status = cancelledStr → matchesQuery rt di dOut b = false) := by
  intro bs rt ci co
  refine ⟨fun h => ?_, fun di dOut hci hco H => ?_, fun di dOut b hb => ?_⟩
  · rcases h with h | h
    · simp [booked_count_for_range, h]
    · rcases hci : parse_date ci with _ | di <;>
        simp [booked_count_for_range, hci, h]
  · simp only [booked_count_for_range, hci, hco]
    rw [countLoop_spec rt di dOut bs 0 H]
    simp
  · have hne : cancelledStr ≠ confirmedStr := by decide
    simp [matchesQuery, hb, hne]

/-- Counterexample to C4 as stated: on a ledger holding a confirmed booking of
the queried type whose stored check-in does not parse, the scan crashes
(Python raises `TypeError` comparing a date with `None`) instead of returning
the overlap count (which the claim would make 0 here). -/
theorem claim4_booked_count_counterexample :
    booked_count_for_range [malformedDateBooking] "single".data
        "2024-01-01".data "2024-01-10".data = .crash ∧
    booked_count_for_range [malformedDateBooking] "single".data
        "2024-01-01".data "2024-01-10".data ≠ .ok (some 0) := by
  exact ⟨by decide, by decide⟩

/-- Witness: all ten February bookings overlap the sub-range
2024-02-02..2024-02-03, and none is skipped. -/
theorem claim4_booked_count_witness :
    booked_count_for_range ledger10 "single".data "2024-02-02".data
      "2024-02-03".data = .ok (some 10) := by
  have h := (claim4_booked_count ledger10 "single".data "2024-02-02".data
    "2024-02-03".data).2.1 ⟨2024, 2, 2⟩ ⟨2024, 2, 3⟩ (by decide) (by decide)
    (by decide)
  have hlen : (ledger10.filter
      (matchesQuery "single".data ⟨2024, 2, 2⟩ ⟨2024, 2, 3⟩)).length = 10 := by
    decide
  rw [h, hlen]

/-! ## C6: cancellation is terminal and idempotent -/

/-- C6: cancelling an unknown ID returns NotFound and changes nothing;
cancelling an already-cancelled booking returns the record completely
unchanged without saving; cancelling a confirmed booking sets its status to
cancelled, stamps `cancelled_at`, saves, and a second cancel on the resulting
ledger returns that same record unchanged without further state change. -/
theorem claim6_cancel_idempotent :
    ∀ (bs : List Booking) (now now2 bid : Str),
      (get_booking bs bid = none → cancel_booking bs now bid = ⟨bs, none, false⟩) ∧
      (∀ b, get_booking bs bid = some b → b.status = cancelledStr →
        cancel_booking bs now bid = ⟨bs, some b, false⟩) ∧
      (∀ b, get_booking bs bid = some b → b.status = confirmedStr →
        (cancel_booking bs now bid).booking
            = some { b with status := cancelledStr, cancelled_at := some now } ∧
        (cancel_booking bs now bid).saved = true ∧
        cancel_booking (cancel_booking bs now bid).bookings now2 bid
          = ⟨(cancel_booking bs now bid).bookings,
             some { b with status := cancelledStr, cancelled_at := some now },
             false⟩) := by
  intro bs now now2 bid
  induction bs with
  | nil =>
    refine ⟨fun _ => rfl, fun b hb _ => ?_, fun b hb _ => ?_⟩ <;>
      simp [get_booking] at hb
  | cons hd t ih =>
    obtain ⟨ih1, ih2, ih3⟩ := ih
    by_cases hm : hd.booking_id = bid
    · refine ⟨fun hnone => ?_, fun b hb hc => ?_, fun b hb hc => ?_⟩
      · exfalso
        simp [get_booking, hm] at hnone
      · have hbe : hd = b := by simpa [get_booking, hm] using hb
        subst hbe
        simp [cancel_booking, hm, hc]
      · have hbe : hd = b := by simpa [get_booking, hm] using hb
        subst hbe
        have hnc : ¬ (hd.status = cancelledStr) := by
          rw [hc]; decide
        refine ⟨by simp [cancel_booking, hm, hnc], by simp [cancel_booking, hm, hnc], ?_⟩
        simp [cancel_booking, hm, hnc]
    · refine ⟨fun hnone => ?_, fun b hb hc => ?_, fun b hb hc => ?_⟩
      · have h1 := ih1 (by simpa [get_booking, hm] using hnone)
        simp [cancel_booking, hm, h1]
      · have h2 := ih2 b (by simpa [get_booking, hm] using hb) hc
        simp [cancel_booking, hm, h2]
      · obtain ⟨h31, h32, h33⟩ := ih3 b (by simpa [get_booking, hm] using hb) hc
        refine ⟨by simp [cancel_booking, hm, h31], by simp [cancel_booking, hm, h32], ?_⟩
        simp [cancel_booking, hm, h33]

/-- Witness: cancelling `backToBackBooking` in a one-element ledger flips its
status, and a second cancel is a no-op returning the same record. -/
theorem claim6_cancel_idempotent_witness :
    (cancel_booking [backToBackBooking] sampleNow "BK0011".data).booking
        = some { backToBackBooking with
                 status := cancelledStr, cancelled_at := some sampleNow } ∧
      (cancel_booking [backToBackBooking] sampleNow "BK0011".data).saved = true := by
  have h := (claim6_cancel_idempotent [backToBackBooking] sampleNow sampleNow
    "BK0011".data).2.2 backToBackBooking (by decide) (by decide)
  exact ⟨h.1, h.2.1⟩

/-! ## C8: search -/

/-- C8: `search_bookings` returns exactly the bookings (whatever their status)
for which the lower-cased query is a substring of the lower-cased guest name,
email or booking ID, and the result is a sublist of the ledger, so insertion
order is preserved. -/
theorem claim8_search :
    ∀ (bs : List Booking) (q : Str),
      (∀ b, b ∈ search_bookings bs q ↔
        b ∈ bs ∧ (toLowerStr q <:+: toLowerStr b.guest_name ∨
                  toLowerStr q <:+: toLowerStr b.email ∨
                  toLowerStr q <:+: toLowerStr b.booking_id)) ∧
      (search_bookings bs q).Sublist bs := by
  intro bs q
  constructor
  · intro b
    simp [search_bookings, List.mem_filter, pySubstr, or_assoc]
  · simp only [search_bookings]
    exact List.filter_sublist _

/-- Witness: the lowercase fragment "anjali" finds the booking stored with
uppercase guest name "ANJALI JHA" (Scenario 4). -/
theorem claim8_search_witness :
    { backToBackBooking with guest_name := "ANJALI JHA".data }
      ∈ search_bookings [{ backToBackBooking with guest_name := "ANJALI JHA".data }]
          "anjali".data := by
  refine ((claim8_search
    [{ backToBackBooking with guest_name := "ANJALI JHA".data }]
    "anjali".data).1 _).mpr ⟨by simp, Or.inl (by decide)⟩

/-! ## C7: booking ID generation -/

lemma digitChar_isDigit {n : Nat} (h : n < 10) : (digitChar n).isDigit = true := by
  interval_cases n <;> decide

lemma digitChar_val {n : Nat} (h : n < 10) : (digitChar n).toNat - 48 = n := by
  interval_cases n <;> decide

lemma natReprAux_ne_nil : ∀ fuel n : Nat, n < fuel → natReprAux fuel n ≠ [] := by
  intro fuel
  induction fuel with
  | zero => intro n h; omega
  | succ f ih =>
    intro n h
    unfold natReprAux
    split_ifs with h10 <;> simp

lemma natReprAux_all_digits : ∀ fuel n : Nat, n < fuel →
    (natReprAux fuel n).all Char.isDigit = true := by
  intro fuel
  induction fuel with
  | zero => intro n h; omega
  | succ f ih =>
    intro n h
    unfold natReprAux
    split_ifs with h10
    · simp [digitChar_isDigit h10]
    · have hdiv : n / 10 < f := by omega
      simp [List.all_append, ih _ hdiv,
        digitChar_isDigit (Nat.mod_lt n (by norm_num))]

lemma natReprAux_foldl : ∀ fuel n a : Nat, n < fuel →
    List.foldl (fun a c => 10 * a + (c.toNat - 48)) a (natReprAux fuel n)
      = a * 10 ^ (natReprAux fuel n).length + n := by
  intro fuel
  induction fuel with
  | zero => intro n a h; omega
  | succ f ih =>
    intro n a h
    unfold natReprAux
    split_ifs with h10
    · simp [digitChar_val h10]
      omega
    · have hdiv : n / 10 < f := by omega
      rw [List.foldl_append, ih _ a hdiv]
      simp only [List.foldl_cons, List.foldl_nil, List.length_append,
        List.length_cons, List.length_nil]
      rw [digitChar_val (Nat.mod_lt n (by norm_num))]
      have hmod := Nat.div_add_mod n 10
      set L := (natReprAux f (n / 10)).length
      calc 10 * (a * 10 ^ L + n / 10) + n % 10
          = a * (10 ^ L * 10) + (10 * (n / 10) + n % 10) := by ring
        _ = a * 10 ^ (L + 1) + n := by rw [pow_succ, hmod]

lemma foldl_zero_replicate : ∀ z : Nat,
    List.foldl (fun a c => 10 * a + (c.toNat - 48)) 0 (List.replicate z '0') = 0 := by
  intro z
  induction z with
  | zero => rfl
  | succ k ih => simpa [List.replicate_succ] using ih

lemma pad4_all_digits (k : Nat) : (pad4 k).all Char.isDigit = true := by
  unfold pad4 natRepr
  rw [List.all_append]
  refine Bool.and_eq_true_iff.mpr ⟨?_, natReprAux_all_digits _ _ (Nat.lt_succ_self k)⟩
  simp only [List.all_eq_true, List.mem_replicate]
  rintro c ⟨-, rfl⟩
  decide

lemma pad4_ne_nil (k : Nat) : pad4 k ≠ [] := by
  unfold pad4 natRepr
  intro h
  rcases List.append_eq_nil.mp h with ⟨-, h2⟩
  exact natReprAux_ne_nil _ _ (Nat.lt_succ_self k) h2

lemma digitsToNat?_pad4 (k : Nat) : digitsToNat? (pad4 k) = some k := by
  unfold digitsToNat?
  rw [if_pos ⟨pad4_ne_nil k, pad4_all_digits k⟩]
  congr 1
  unfold digitsToNat pad4 natRepr
  rw [List.foldl_append, foldl_zero_replicate]
  have h := natReprAux_foldl (k + 1) k 0 (Nat.lt_succ_self k)
  simpa using h

lemma pad4_head_digit (k : Nat) :
    ∀ c, (pad4 k).head? = some c → c.isDigit = true := by
  rcases hp : pad4 k with _ | ⟨c, t⟩
  · exact absurd hp (pad4_ne_nil k)
  · intro d hd
    have hall := pad4_all_digits k
    rw [hp] at hall
    simp only [List.all_cons, Bool.and_eq_true] at hall
    simp only [List.head?_cons, Option.some.injEq] at hd
    rw [← hd]
    exact hall.1

lemma pyInt?_pad4 (k : Nat) : pyInt? (pad4 k) = some (k : Int) := by
  have hm : ¬ ((pad4 k).head? = some '-') := fun h =>
    absurd (pad4_head_digit k '-' h) (by decide)
  have hp2 : ¬ ((pad4 k).head? = some '+') := fun h =>
    absurd (pad4_head_digit k '+' h) (by decide)
  unfold pyInt?
  rw [if_neg hm, if_neg hp2, digitsToNat?_pad4]
  rfl

lemma bkSuffix?_generate (bs : List Booking) :
    bkSuffix? (generate_booking_id bs) = some ((maxSuffix bs : Int) + 1) := by
  unfold bkSuffix? generate_booking_id
  rw [if_pos (by rfl)]
  have hdrop : List.drop 2 ('B' :: 'K' :: pad4 (maxSuffix bs + 1))
      = pad4 (maxSuffix bs + 1) := rfl
  rw [hdrop, pyInt?_pad4]
  simp

lemma maxStep_ge (m : Nat) (b : Booking) : m ≤ maxStep m b := by
  unfold maxStep
  split_ifs with h
  · rcases hp : pyInt? (List.drop 2 b.booking_id) with _ | n
    · simp [hp]
    · simp only [hp]
      split_ifs with h2
      · omega
      · exact le_refl m
  · exact le_refl m

lemma foldl_maxStep_ge : ∀ (l : List Booking) (m : Nat), m ≤ l.foldl maxStep m := by
  intro l
  induction l with
  | nil => intro m; simp
  | cons b t ih =>
    intro m
    exact le_trans (maxStep_ge m b) (ih (maxStep m b))

lemma maxStep_none {m : Nat} {b : Booking}
    (h : bkSuffix? b.booking_id = none) : maxStep m b = m := by
  unfold bkSuffix? at h
  unfold maxStep
  by_cases hs : startsWithBK b.booking_id
  · rw [if_pos hs] at h
    rw [if_pos hs]
    simp [h]
  · rw [if_neg hs]

lemma maxStep_some {m : Nat} {b : Booking} {n : Int}
    (h : bkSuffix? b.booking_id = some n) :
    (maxStep m b : Int) = max (m : Int) n := by
  unfold bkSuffix? at h
  unfold maxStep
  by_cases hs : startsWithBK b.booking_id
  · rw [if_pos hs] at h
    rw [if_pos hs]
    simp only [h]
    split_ifs with h2
    · rw [Int.toNat_of_nonneg (by omega), max_eq_right (le_of_lt h2)]
    · rw [max_eq_left (not_lt.mp h2)]
  · rw [if_neg hs] at h
    cases h

lemma foldl_maxStep_mem_bound : ∀ (l : List Booking) (m : Nat) (b : Booking),
    b ∈ l → ∀ n : Int, bkSuffix? b.booking_id = some n →
    n ≤ ((l.foldl maxStep m : Nat) : Int) := by
  intro l
  induction l with
  | nil => intro m b hb; cases hb
  | cons hd t ih =>
    intro m b hb n hsuf
    simp only [List.foldl_cons]
    rcases List.mem_cons.mp hb with rfl | hbt
    · have hstep : n ≤ (maxStep m b : Int) := by
        rw [maxStep_some hsuf]
        exact le_max_right _ _
      exact le_trans hstep (by exact_mod_cast foldl_maxStep_ge t (maxStep m b))
    · exact ih (maxStep m hd) b hbt n hsuf

lemma foldr_max_init (xs : List Int) : ∀ a n : Int,
    xs.foldr max (max a n) = max n (xs.foldr max a) := by
  induction xs with
  | nil => intro a n; exact max_comm a n
  | cons x t ih =>
    intro a n
    simp only [List.foldr_cons, ih a n]
    rw [max_left_comm]

lemma foldl_maxStep_eq_foldr : ∀ (l : List Booking) (m : Nat),
    ((l.foldl maxStep m : Nat) : Int)
      = (l.filterMap (fun b => bkSuffix? b.booking_id)).foldr max (m : Int) := by
  intro l
  induction l with
  | nil => intro m; rfl
  | cons hd t ih =>
    intro m
    simp only [List.foldl_cons, List.filterMap_cons]
    rcases hsuf : bkSuffix? hd.booking_id with _ | n
    · rw [maxStep_none hsuf]
      exact ih m
    · simp only [List.foldr_cons]
      rw [ih (maxStep m hd), maxStep_some hsuf]
      exact foldr_max_init _ m n

/-- C7: `generate_booking_id` returns `BK` followed by one plus the maximum
numeric suffix over well-formed `BK`-prefixed IDs (malformed suffixes
ignored), zero-padded to 4 digits; the result never equals an ID already in
the ledger (cancelled bookings included, since the scan ignores status); and
appending the freshly created booking makes the next generated number exactly
one larger, so ID numbers increase across successive creates. -/
theorem claim7_generate_id :
    ∀ bs : List Booking,
      (0 ≤ specMaxSuffix bs ∧
        (maxSuffix bs : Int) = specMaxSuffix bs ∧
        generate_booking_id bs
          = 'B' :: 'K' :: pad4 ((specMaxSuffix bs).toNat + 1)) ∧
      (∀ b ∈ bs, b.booking_id ≠ generate_booking_id bs) ∧
      (∀ b : Booking, b.booking_id = generate_booking_id bs →
        maxSuffix (bs ++ [b]) = maxSuffix bs + 1 ∧
        generate_booking_id (bs ++ [b])
          = 'B' :: 'K' :: pad4 (maxSuffix bs + 2)) := by
  intro bs
  have hspec : (maxSuffix bs : Int) = specMaxSuffix bs := by
    have h := foldl_maxStep_eq_foldr bs 0
    simpa [maxSuffix, specMaxSuffix] using h
  refine ⟨⟨?_, hspec, ?_⟩, ?_, ?_⟩
  · rw [← hspec]
    exact Int.natCast_nonneg _
  · have htn : (specMaxSuffix bs).toNat = maxSuffix bs := by omega
    rw [generate_booking_id, htn]
  · intro b hb heq
    have hs := bkSuffix?_generate bs
    rw [← heq] at hs
    have hbound := foldl_maxStep_mem_bound bs 0 b hb _ hs
    have : (maxSuffix bs : Int) = ((bs.foldl maxStep 0 : Nat) : Int) := rfl
    omega
  · intro b heq
    have hsuf : bkSuffix? b.booking_id = some ((maxSuffix bs : Int) + 1) := by
      rw [heq]
      exact bkSuffix?_generate bs
    have hstep : (maxStep (maxSuffix bs) b : Int)
        = max ((maxSuffix bs : Nat) : Int) ((maxSuffix bs : Int) + 1) :=
      maxStep_some hsuf
    rw [max_eq_right (by omega)] at hstep
    have hval : maxStep (maxSuffix bs) b = maxSuffix bs + 1 := by
      exact_mod_cast hstep
    have hmax : maxSuffix (bs ++ [b]) = maxSuffix bs + 1 := by
      unfold maxSuffix
      rw [List.foldl_append]
      simpa [maxSuffix] using hval
    refine ⟨hmax, ?_⟩
    rw [generate_booking_id, hmax]

/-- Witness: on a ledger holding BK0001..BK0010 plus a malformed ID, the next
ID is BK0011, distinct from every stored ID. -/
theorem claim7_generate_id_witness :
    generate_booking_id (ledger10 ++ [malformedDateBooking])
        = "BK0011".data ∧
      "BK0010".data ≠ generate_booking_id (ledger10 ++ [malformedDateBooking]) := by
  constructor
  · decide
  · have h := (claim7_generate_id (ledger10 ++ [malformedDateBooking])).2.1
      (febBooking "BK0010".data) (by decide)
    simpa [febBooking] using h

end HotelBooking
